import Mathlib

/-!
Verification of the market-data aggregation pipeline of `game_planner.py`
(SteamSpy / RAWG collection, per-genre and per-tag aggregation, caching, report
formatting, and AI-response post-processing).

The Python source is embedded shallowly:
* strings are Lean `String`s, with character-level helpers mirroring the exact
  Python string operations used (`str.strip`, `str.split`, `str.replace`,
  `str.startswith`, `int(...)`);
* Python dicts that the code iterates are insertion-ordered association lists;
* `collections.Counter` is an insertion-ordered association list with a bump
  operation, and `most_common` is a stable descending sort by count;
* network calls are oracles supplied as explicit arguments: an oracle result of
  `none` stands for any exception raised inside the corresponding `try` block
  (timeout, non-2xx status, malformed payload);
* machine integers are `Int` / `Nat`; Python `//` and `%` (floor division and
  sign-of-divisor remainder) are `Int.fdiv` / `Int.emod`;
* the few float-valued quantities the report formatter renders
  (ratios formatted with one decimal place) are modelled with exact rationals
  and deterministic round-half-to-even, which agrees with the binary64
  computation except in ties that the data of this program does not hit.
-/

namespace GamePlanner

/-- ASCII whitespace recognised by Python `str.strip()` (the subset this
program's data can contain). -/
def isPySpace (c : Char) : Bool :=
  c == ' ' || c == '\t' || c == '\n' || c == '\r' || c == '\x0b' || c == '\x0c'

/-- Python `s.strip()` on a character list. -/
def pyStrip (l : List Char) : List Char :=
  ((l.dropWhile isPySpace).reverse.dropWhile isPySpace).reverse

/-- Python `s.strip()` on a `String`. -/
def pyStripStr (s : String) : String :=
  ⟨pyStrip s.toList⟩

/-- Value of a nonempty all-digit character list; `none` otherwise
(mirrors the success condition of Python `int` on a digit string). -/
def digitsVal : List Char → Option Nat
  | [] => none
  | l => go l 0
where
  go : List Char → Nat → Option Nat
    | [], acc => some acc
    | c :: cs, acc =>
        if c.isDigit then go cs (acc * 10 + (c.toNat - '0'.toNat)) else none

/-- Python `int(s)` on an already-stripped character list: an optional sign
followed by at least one digit; `none` models a `ValueError`.
(Underscore separators and non-ASCII digits, which Python also accepts but the
SteamSpy payloads never contain, are not modelled.) -/
def parseIntChars : List Char → Option Int
  | '-' :: rest => (digitsVal rest).map (fun n => -(n : Int))
  | '+' :: rest => (digitsVal rest).map (fun n => (n : Int))
  | l => (digitsVal l).map (fun n => (n : Int))

/-- Python `s.split("..")`: split on non-overlapping occurrences of `".."`,
scanning left to right; always returns at least one piece. -/
def splitDD : List Char → List (List Char)
  | [] => [[]]
  | '.' :: '.' :: rest => [] :: splitDD rest
  | c :: rest =>
      match splitDD rest with
      | [] => [[c]]
      | p :: ps => (c :: p) :: ps

/-- `owners_str.replace(",", "").split("..")` from `_parse_owners`. -/
def ownersParts (s : String) : List (List Char) :=
  splitDD (s.toList.filter (fun c => c != ','))

/-- The body of `_parse_owners` up to the `try`/`except`:
`low = int(parts[0].strip())`, `high = int(parts[1].strip()) if len(parts) > 1
else low`, `(low + high) // 2`; `none` models the caught
`ValueError`/`IndexError`. -/
def parseOwnersCore (parts : List (List Char)) : Option Int :=
  match parts with
  | [] => none
  | p0 :: rest =>
    match parseIntChars (pyStrip p0) with
    | none => none
    | some low =>
      match rest with
      | [] => some (Int.fdiv (low + low) 2)
      | p1 :: _ =>
        match parseIntChars (pyStrip p1) with
        | none => none
        | some high => some (Int.fdiv (low + high) 2)

/-- `_parse_owners` from game_planner.py: parse a SteamSpy owners-range string
(e.g. `"10,000,000 .. 20,000,000"`) to its midpoint; a parse failure
(the caught `ValueError`/`IndexError`) yields `0`. -/
def parse_owners (owners_str : String) : Int :=
  (parseOwnersCore (ownersParts owners_str)).getD 0

/-- Whether `_parse_owners` reaches its `return` without raising,
i.e. all required `int(...)` conversions succeed. -/
def ownersParses (owners_str : String) : Bool :=
  (parseOwnersCore (ownersParts owners_str)).isSome

/-- A SteamSpy `price` JSON value: an integer, or a string
(the code handles both with `isinstance(price, str)`). -/
inductive PriceVal where
  | int (n : Int)
  | str (s : String)
deriving DecidableEq

/-- A SteamSpy `tags` JSON value: a mapping (modelled by its key list in
insertion order), or any non-dict value (SteamSpy returns `[]` for a game
without tags). -/
inductive TagsVal where
  | dict (keys : List String)
  | nondict
deriving DecidableEq

/-- The fields of a SteamSpy per-app JSON object that the program reads;
`none` means the key is absent (the code supplies defaults via `.get`). -/
structure SpyInfo where
  name : Option String := none
  owners : Option String := none
  price : Option PriceVal := none
  average_forever : Option Int := none
  average_2weeks : Option Int := none
  genre : Option String := none
  tags : Option TagsVal := none
deriving DecidableEq

/-- `price = info.get("price", 0)`, then on a string value
`int(price)` with a caught `ValueError` giving `0`. -/
def priceOf (info : SpyInfo) : Int :=
  match info.price with
  | none => 0
  | some (.int n) => n
  | some (.str s) => (parseIntChars (pyStrip s.toList)).getD 0

/-- `collections.Counter` as an insertion-ordered association list:
`c[k] += 1` bumps an existing key in place, a new key is appended with
count 1. -/
def counterBump {α : Type} [BEq α] : List (α × Nat) → α → List (α × Nat)
  | [], k => [(k, 1)]
  | (k0, n) :: rest, k =>
      if k0 == k then (k0, n + 1) :: rest else (k0, n) :: counterBump rest k

/-- Ordered insertion for a stable sort: `r a b` means `a` may be placed
before `b`. -/
def pyInsert {α : Type} (r : α → α → Bool) (a : α) : List α → List α
  | [] => [a]
  | b :: l => if r a b then a :: b :: l else b :: pyInsert r a l

/-- Stable insertion sort; with `r a b := key b ≤ key a` this matches Python's
`sorted(key=..., reverse=True)` (ties keep the original order). -/
def pySort {α : Type} (r : α → α → Bool) : List α → List α
  | [] => []
  | a :: l => pyInsert r a (pySort r l)

/-- `Counter.most_common(n)`: the `n` entries with the largest counts,
equal counts in first-encountered order. -/
def mostCommon {α : Type} (c : List (α × Nat)) (n : Nat) : List (α × Nat) :=
  (pySort (fun x y => decide (y.2 ≤ x.2)) c).take n

/-- `Counter.most_common()` without an argument: all entries, sorted. -/
def mostCommonAll {α : Type} (c : List (α × Nat)) : List (α × Nat) :=
  pySort (fun x y => decide (y.2 ≤ x.2)) c

/-- The per-genre aggregate dict built by `fetch_steamspy_genres`. -/
structure GenreInfo where
  game_count : Nat
  total_owners : Int
  avg_price : Int
  avg_playtime : Int
deriving DecidableEq

/-- One iteration of the per-genre aggregation loop of
`fetch_steamspy_genres`: accumulate `total_owners`, append to `prices` when
`price > 0`, append to `playtimes` when `average_forever > 0`. -/
def genreStep (acc : Int × List Int × List Int) (e : String × SpyInfo) :
    Int × List Int × List Int :=
  let (total_owners, prices, playtimes) := acc
  let owners := parse_owners ((e.2).owners.getD "0")
  let price := priceOf e.2
  let avg_forever := (e.2).average_forever.getD 0
  (total_owners + owners,
   if 0 < price then prices ++ [price] else prices,
   if 0 < avg_forever then playtimes ++ [avg_forever] else playtimes)

/-- The per-genre aggregation of `fetch_steamspy_genres` over one genre's
payload (`games` in insertion order): loop over `list(games.items())[:50]`,
then `game_count = len(games)` and integer-floor averages with 0 for an empty
list. -/
def aggregateGenrePayload (games : List (String × SpyInfo)) : GenreInfo :=
  let r := (games.take 50).foldl genreStep (0, [], [])
  { game_count := games.length
    total_owners := r.1
    avg_price := if r.2.1.isEmpty then 0 else Int.fdiv r.2.1.sum r.2.1.length
    avg_playtime := if r.2.2.isEmpty then 0 else Int.fdiv r.2.2.sum r.2.2.length }

def STEAMSPY_GENRE_LIST : List String :=
  ["Action", "Adventure", "RPG", "Strategy", "Simulation",
   "Indie", "Casual", "Racing"]

def STEAMSPY_TAG_LIST : List String :=
  ["Roguelike", "Open World", "Survival", "Multiplayer",
   "Co-op", "Puzzle", "Horror", "Platformer",
   "Deck Building", "Tower Defense"]

/-- `fetch_steamspy_genres`: per genre of `STEAMSPY_GENRE_LIST` the endpoint
either answers with a payload (`some`) or the iteration raises and is skipped
by `continue` (`none`); an empty result dict becomes the failure string. -/
def fetch_steamspy_genres (oracle : String → Option (List (String × SpyInfo))) :
    Sum (List (String × GenreInfo)) String :=
  let genre_data := STEAMSPY_GENRE_LIST.foldl (fun acc genre =>
    match oracle genre with
    | none => acc
    | some games => acc ++ [(genre, aggregateGenrePayload games)]) []
  if genre_data.isEmpty then .inr "SteamSpy 장르 데이터 수집 실패"
  else .inl genre_data

/-- The per-tag aggregate dict built by `fetch_steamspy_tags`. -/
structure TagInfo where
  game_count : Nat
  total_owners : Int
  avg_price : Int
  co_tags : List (String × Nat)
deriving DecidableEq

/-- One iteration of the per-tag aggregation loop of `fetch_steamspy_tags`:
accumulate `total_owners`, append positive prices, and count co-occurring tags
other than the queried tag. -/
def tagStep (tag : String) (acc : Int × List Int × List (String × Nat))
    (e : String × SpyInfo) : Int × List Int × List (String × Nat) :=
  let (total_owners, prices, all_tags) := acc
  let owners := parse_owners ((e.2).owners.getD "0")
  let price := priceOf e.2
  let all_tags := match (e.2).tags with
    | some (.dict ks) =>
        ks.foldl (fun c t => if t != tag then counterBump c t else c) all_tags
    | _ => all_tags
  (total_owners + owners,
   if 0 < price then prices ++ [price] else prices,
   all_tags)

/-- The per-tag aggregation of `fetch_steamspy_tags` over one tag's payload:
loop over `list(games.items())[:30]`, then `game_count = len(games)`,
the floor average price and `co_tags = all_tags.most_common(10)`. -/
def aggregateTagPayload (tag : String) (games : List (String × SpyInfo)) :
    TagInfo :=
  let r := (games.take 30).foldl (tagStep tag) (0, [], [])
  { game_count := games.length
    total_owners := r.1
    avg_price := if r.2.1.isEmpty then 0 else Int.fdiv r.2.1.sum r.2.1.length
    co_tags := mostCommon r.2.2 10 }

/-- `fetch_steamspy_tags`, analogous to `fetch_steamspy_genres`. -/
def fetch_steamspy_tags (oracle : String → Option (List (String × SpyInfo))) :
    Sum (List (String × TagInfo)) String :=
  let tag_data := STEAMSPY_TAG_LIST.foldl (fun acc tag =>
    match oracle tag with
    | none => acc
    | some games => acc ++ [(tag, aggregateTagPayload tag games)]) []
  if tag_data.isEmpty then .inr "SteamSpy 태그 데이터 수집 실패"
  else .inl tag_data

/-- A 51-entry genre payload, each entry owning `"2"` owners: one entry more
than the 50-entry window of the aggregation loop. -/
def genrePayload51 : List (String × SpyInfo) :=
  List.replicate 51 ("app", { owners := some "2" })

/-- An endpoint oracle answering only for the `"Action"` genre, with
`genrePayload51`. -/
def c1Oracle : String → Option (List (String × SpyInfo)) :=
  fun g => if g == "Action" then some genrePayload51 else none

/-- Python `s.split(sep)` for a single-character separator. -/
def splitChar (sep : Char) : List Char → List (List Char)
  | [] => [[]]
  | c :: rest =>
      if c == sep then [] :: splitChar sep rest
      else
        match splitChar sep rest with
        | [] => [[c]]
        | p :: ps => (c :: p) :: ps

/-- `[g.strip() for g in s.split(",") if g.strip()]` (the genre-CSV parsing of
`fetch_steam_top100`). -/
def pySplitCSV (s : String) : List String :=
  ((splitChar ',' s.toList).map pyStrip).filterMap
    (fun l => if l.isEmpty then none else some ⟨l⟩)

/-- The fields of a `top100in2weeks` entry that the program reads. -/
structure BasicInfo where
  name : Option String := none
  owners : Option String := none
  average_2weeks : Option Int := none
deriving DecidableEq

/-- One merged game record collected by `fetch_steam_top100`. -/
structure Game where
  name : String
  owners : Int
  average_2weeks : Int
  release_year : Int
  genre : List String
  tags : List String
  price : Int
deriving DecidableEq

/-- The successful payload of `fetch_steam_top100`. -/
structure SteamData where
  games : List Game
  top_genres : List (String × Nat)
  top_tags : List (String × Nat)
deriving DecidableEq

/-- The external behaviour `fetch_steam_top100` depends on:
* `top100`: the items of the `top100in2weeks` response, listed in the
  completion order of the release-date thread pool (`as_completed` yields
  futures in a scheduler-chosen order, so that order is an input of the
  model); `.inr e` is the message of an exception raised by the request
  itself (timeout, non-2xx, malformed payload);
* `releaseYear appid`: the result of `_get_release_year` (`none` covers both
  a missing date and any caught exception);
* `detail appid`: the parsed `appdetails` response, `none` standing for any
  exception raised inside the per-app `try` block;
* `nowYear`: `datetime.now().year`. -/
structure Top100Env where
  top100 : Sum (List (String × BasicInfo)) String
  releaseYear : String → Option Int
  detail : String → Option SpyInfo
  nowYear : Int

def STEAMSPY_TOP_DETAIL_COUNT : Nat := 15

/-- The detail-collection loop of `fetch_steam_top100` over the sorted recent
games: break once `STEAMSPY_TOP_DETAIL_COUNT` games are collected, skip an app
whose detail lookup raises (`continue`) or whose `average_2weeks` is `0`,
otherwise bump the genre/tag counters and append the merged game record. -/
def top100Loop (detail : String → Option SpyInfo) :
    List (String × BasicInfo × Int) → List Game → List (String × Nat) →
    List (String × Nat) → List Game × List (String × Nat) × List (String × Nat)
  | [], games, gc, tc => (games, gc, tc)
  | x :: rest, games, gc, tc =>
      if STEAMSPY_TOP_DETAIL_COUNT ≤ games.length then (games, gc, tc)
      else
        match detail x.1 with
        | none => top100Loop detail rest games gc tc
        | some d =>
          let avg2 := d.average_2weeks.getD 0
          if avg2 == 0 then top100Loop detail rest games gc tc
          else
            let genreList := pySplitCSV (d.genre.getD "")
            let tagNames :=
              match d.tags.getD (.dict []) with
              | .dict ks => ks.take 10
              | .nondict => []
            let price := priceOf d
            let gc' := genreList.foldl counterBump gc
            let tc' := tagNames.foldl counterBump tc
            let owners := parse_owners (d.owners.getD ((x.2.1).owners.getD "0"))
            let name := d.name.getD ((x.2.1).name.getD "Unknown")
            top100Loop detail rest
              (games ++ [⟨name, owners, avg2, x.2.2, genreList, tagNames, price⟩])
              gc' tc'

/-- `fetch_steam_top100`: on a failed `top100in2weeks` request return the
descriptive failure string; otherwise keep the games released in the last
`recent_years` years, sort them by `average_2weeks` descending (stable), run
the detail loop, and return the games with the genre/tag `most_common`
rankings. -/
def fetch_steam_top100 (env : Top100Env) (recent_years : Int) :
    Sum SteamData String :=
  match env.top100 with
  | .inr e => .inr ("Steam 데이터 수집 실패: " ++ e)
  | .inl items =>
    let cutoff := env.nowYear - recent_years
    let recent := items.filterMap (fun it =>
      match env.releaseYear it.1 with
      | some y => if cutoff ≤ y then some (it.1, it.2, y) else none
      | none => none)
    let sorted := pySort (fun a b =>
      decide ((b.2.1).average_2weeks.getD 0 ≤ (a.2.1).average_2weeks.getD 0))
      recent
    let r := top100Loop env.detail sorted [] [] []
    .inl { games := r.1, top_genres := mostCommon r.2.1 10,
           top_tags := mostCommon r.2.2 15 }

/-- Digits of a natural number with Python's `{:,}` thousands grouping. -/
def commaSepNat (n : Nat) : String :=
  ⟨(group (toString n).toList.reverse).reverse⟩
where
  group : List Char → List Char
    | a :: b :: c :: d :: rest => a :: b :: c :: ',' :: group (d :: rest)
    | l => l

/-- Python `f"{n:,}"` for an integer. -/
def commaSepInt (n : Int) : String :=
  if n < 0 then "-" ++ commaSepNat n.natAbs else commaSepNat n.natAbs

/-- `_format_owners`: at least 10,000 becomes `{count // 10000:,}만`. -/
def format_owners (count : Int) : String :=
  if 10000 ≤ count then commaSepInt (Int.fdiv count 10000) ++ "만"
  else commaSepInt count

/-- `_format_playtime`: minutes rendered as `h시간 m분` / `h시간` / `m분`
(`divmod` is floor division with a sign-of-divisor remainder). -/
def format_playtime (minutes : Int) : String :=
  if 60 ≤ minutes then
    let h := Int.fdiv minutes 60
    let m := Int.emod minutes 60
    if m ≠ 0 then toString h ++ "시간 " ++ toString m ++ "분"
    else toString h ++ "시간"
  else toString minutes ++ "분"

def joinComma (l : List String) : String := String.intercalate ", " l

def joinNL (l : List String) : String := String.intercalate "\n" l

/-- `format_steam_summary`: the empty string on a failure-string or `None`
data argument, otherwise the prompt text block built from the first 10 games
and the genre/tag rankings. -/
def format_steam_summary (steam_data : Option (Sum SteamData String))
    (recent_years : Int) : String :=
  match steam_data with
  | none => ""
  | some (.inr _) => ""
  | some (.inl d) =>
    let gameLines := (d.games.take 10).map (fun g =>
      let genres := if g.genre.isEmpty then "N/A" else joinComma g.genre
      "- " ++ g.name ++ " (" ++ toString g.release_year ++ "년, 장르: " ++
        genres ++ ", 최근 2주 평균 플레이: " ++
        format_playtime g.average_2weeks ++ ")")
    let genreLines := d.top_genres.map (fun gc =>
      "- " ++ gc.1 ++ " (" ++ toString gc.2 ++ "개 게임)")
    let tagLine := joinComma (d.top_tags.map (fun tc =>
      tc.1 ++ "(" ++ toString tc.2 ++ ")"))
    joinNL ((("Steam 인기 게임 (최근 2주 인기 + 최근 " ++
        toString recent_years ++ "년 이내 출시):") :: gameLines)
      ++ ["\nSteam 인기 장르 TOP 10:"] ++ genreLines
      ++ ["\nSteam 인기 태그 TOP 15:", tagLine])

/-- An environment whose `top100in2weeks` request times out. -/
def envFailW : Top100Env :=
  { top100 := .inr "timeout",
    releaseYear := fun _ => none,
    detail := fun _ => none,
    nowYear := 2025 }

/-- An environment with one recent game whose detail lookup succeeds with a
nonzero `average_2weeks`. -/
def envOkW : Top100Env :=
  { top100 := .inl [("10", { average_2weeks := some 5 })],
    releaseYear := fun _ => some 2024,
    detail := fun _ => some
      { name := some "G", owners := some "1000 .. 3000",
        price := some (.int 999), average_2weeks := some 7,
        genre := some "Action, Indie", tags := some (.dict ["Roguelike"]) },
    nowYear := 2025 }

/-- The game record `fetch_steam_top100` collects in `envOkW`. -/
def gameW : Game :=
  { name := "G", owners := 2000, average_2weeks := 7, release_year := 2024,
    genre := ["Action", "Indie"], tags := ["Roguelike"], price := 999 }

/-- The payload `fetch_steam_top100` returns in `envOkW`. -/
def steamDataW : SteamData :=
  { games := [gameW], top_genres := [("Action", 1), ("Indie", 1)],
    top_tags := [("Roguelike", 1)] }

/-- The fields of a RAWG game entry that the report formatter reads. -/
structure RawgGame where
  name : String
  platforms : List String
deriving DecidableEq

/-- One RAWG genre-listing entry (`name`, `games_count`). -/
structure RawgGenre where
  name : String
  games_count : Int
deriving DecidableEq

/-- The RAWG aggregate built by `fetch_rawg_data`, restricted to the fields
the report formatter reads (`popular_games`, `genres`, `platform_stats`,
`metacritic_by_genre`); dicts and Counters are insertion-ordered association
lists. -/
structure RawgData where
  popular_games : List RawgGame
  genres : List RawgGenre
  platform_stats : List (String × Nat)
  metacritic_by_genre : List (String × List Int)
deriving DecidableEq

def CACHE_TTL : ℚ := 3600

/-- `cache_valid`, the Steam top-100 cache check: the cached session value
exists, is not a failure string, was stored under the same `recent_years`
(`steam_data_recent_years`, `none` when never set), and is younger than
`CACHE_TTL`. `time.time()` values are modelled as rationals. -/
def cache_valid (cached : Option (Sum SteamData String))
    (cached_years : Option Int) (cached_time : ℚ)
    (recent_years : Int) (now : ℚ) : Bool :=
  match cached with
  | some (.inl _) =>
      (cached_years == some recent_years) &&
        decide (now - cached_time < CACHE_TTL)
  | _ => false

/-- The dict `{"genres": ..., "tags": ...}` stored under
`steamspy_genre_data` (each part is a payload or a failure string). -/
structure GenreCacheEntry where
  genres : Sum (List (String × GenreInfo)) String
  tags : Sum (List (String × TagInfo)) String
deriving DecidableEq

/-- `steamspy_genre_valid`: the cached entry exists, is not a string, and is
younger than `CACHE_TTL`; no filter parameter is consulted (the genre/tag
fetches take none). -/
def steamspy_genre_valid (cached : Option (Sum GenreCacheEntry String))
    (cached_time : ℚ) (now : ℚ) : Bool :=
  match cached with
  | some (.inl _) => decide (now - cached_time < CACHE_TTL)
  | _ => false

/-- `rawg_valid`: the cached RAWG payload exists, is not a failure string, and
is younger than `CACHE_TTL`; no filter parameter is consulted even though
`fetch_rawg_data` filters by `recent_years`. -/
def rawg_valid (rawg_cached : Option (Sum RawgData String))
    (rawg_time : ℚ) (now : ℚ) : Bool :=
  match rawg_cached with
  | some (.inl _) => decide (now - rawg_time < CACHE_TTL)
  | _ => false

/-- The Steam cache across two runs of the analyzing step: a successful fetch
with filter `fetch_years` at `t_fetch` stores `steam_data = payload`,
`steam_data_recent_years = fetch_years`, `steam_data_time = t_fetch`; a later
run with filter `request_years` at `t_req` reuses the cache iff `cache_valid`
holds. -/
def steamReusedAfterFetch (fetch_years request_years : Int)
    (t_fetch t_req : ℚ) (payload : SteamData) : Bool :=
  cache_valid (some (.inl payload)) (some fetch_years) t_fetch
    request_years t_req

/-- The RAWG cache across two runs of the analyzing step: a successful fetch
with filter `fetch_years` at `t_fetch` stores only `rawg_data = payload` and
`rawg_data_time = t_fetch` (no filter parameter is recorded); a later run with
filter `request_years` at `t_req` reuses the cache iff `rawg_valid` holds. -/
def rawgReusedAfterFetch (fetch_years request_years : Int)
    (t_fetch t_req : ℚ) (payload : RawgData) : Bool :=
  rawg_valid (some (.inl payload)) t_fetch t_req

/-- An arbitrary concrete RAWG payload. -/
def rawgSample : RawgData :=
  { popular_games := [], genres := [], platform_stats := [],
    metacritic_by_genre := [] }

/-- The characters of a Markdown code fence. -/
def fenceMark : List Char := ['`', '`', '`']

/-- Python `s.startswith(p)` on character lists. -/
def startsWithChars : List Char → List Char → Bool
  | _, [] => true
  | [], _ :: _ => false
  | c :: cs, d :: ds => c == d && startsWithChars cs ds

/-- `ln.strip().startswith("```")`. -/
def isFenceLine (ln : List Char) : Bool :=
  startsWithChars (pyStrip ln) fenceMark

/-- `[ln for ln in text.split("\n") if not ln.strip().startswith("```")]`. -/
def cleanLines (text : List Char) : List (List Char) :=
  (splitChar '\n' text).filter (fun ln => !(isFenceLine ln))

/-- The AI-response post-processing shared by `generate_market_analysis` and
`generate_game_ideas`: `text = _call_ai(...).strip()`, then if `text` starts
with a code fence, drop every line whose stripped form starts with a fence and
re-join with newlines. -/
def cleanAiText (resp : String) : String :=
  let text := pyStrip resp.toList
  if startsWithChars text fenceMark then
    joinNL ((cleanLines text).map (fun l => (⟨l⟩ : String)))
  else ⟨text⟩

/-- `generate_market_analysis`, abstracted over the model call (its raw text
response `aiResponse`) and over `json.loads` (`jsonParse`, `none` = parse
failure): clean the response, then parse; `.error` models the uncaught
`json.JSONDecodeError` propagating to the caller. -/
def generate_market_analysis {α : Type} (jsonParse : String → Option α)
    (aiResponse : String) : Except String α :=
  match jsonParse (cleanAiText aiResponse) with
  | some j => .ok j
  | none => .error "json.loads: Expecting value"

/-- `generate_game_ideas` post-processes the model response identically to
`generate_market_analysis`. -/
def generate_game_ideas {α : Type} (jsonParse : String → Option α)
    (aiResponse : String) : Except String α :=
  match jsonParse (cleanAiText aiResponse) with
  | some j => .ok j
  | none => .error "json.loads: Expecting value"

/-- Python `<` on strings: lexicographic comparison by code point. -/
def ltChars : List Char → List Char → Bool
  | [], [] => false
  | [], _ :: _ => true
  | _ :: _, [] => false
  | a :: as, b :: bs => if a < b then true else if b < a then false else ltChars as bs

def pyLtStr (a b : String) : Bool := ltChars a.toList b.toList

/-- `tuple(sorted([a, b]))` on two strings. -/
def sortPair (a b : String) : String × String :=
  if pyLtStr b a then (b, a) else (a, b)

/-- `itertools.combinations(l, 2)`: all index-ordered pairs. -/
def combinations2 {α : Type} : List α → List (α × α)
  | [] => []
  | x :: xs => (xs.map (fun y => (x, y))) ++ combinations2 xs

/-- Python `dict.get` on an insertion-ordered association list. -/
def lookupAssoc {β : Type} : List (String × β) → String → Option β
  | [], _ => none
  | (k, v) :: rest, key => if k == key then some v else lookupAssoc rest key

/-- Round to the nearest integer, ties to the even integer (the rounding of
Python's fixed-point float formatting). -/
def roundHalfEven (q : ℚ) : Int :=
  let f := q.floor
  let r := q - f
  if r < 1 / 2 then f
  else if (1 : ℚ) / 2 < r then f + 1
  else if f % 2 = 0 then f else f + 1

/-- Python `f"{x:.1f}"` on an exact rational: one decimal place, rounding half
to even. (Python computes on the binary64 approximation, which agrees except
in decimal ties the source's integer-derived ratios do not produce exactly.) -/
def fmt1 (q : ℚ) : String :=
  let n := roundHalfEven (q * 10)
  if n < 0 then
    "-" ++ toString (n.natAbs / 10) ++ "." ++ toString (n.natAbs % 10)
  else toString (n.natAbs / 10) ++ "." ++ toString (n.natAbs % 10)

/-- `sum(scores) / len(scores)` as an exact rational (Python raises
`ZeroDivisionError` on an empty list, which `fetch_rawg_data` never stores;
the rational convention gives `0` there). -/
def avgQ (scores : List Int) : ℚ :=
  (scores.sum : ℚ) / (scores.length : ℚ)

/-- The four price buckets of the success-pattern section. -/
inductive Bucket where
  | free
  | under10
  | mid
  | over30
deriving DecidableEq

/-- The price-bucket branch chain of `format_comprehensive_analysis`:
`price_cents == 0` / `<= 1000` / `<= 3000` / else. -/
def priceBucket (price_cents : Int) : Bucket :=
  if price_cents = 0 then .free
  else if price_cents ≤ 1000 then .under10
  else if price_cents ≤ 3000 then .mid
  else .over30

/-- The `price_buckets` dict (fixed key order 무료, ~$10, $10~$30, $30+). -/
structure PriceBuckets where
  free : List Int
  under10 : List Int
  mid : List Int
  over30 : List Int
deriving DecidableEq

/-- One iteration of the bucket-filling loop: append the game's owners to the
bucket selected by the price branch chain. -/
def pbStep (acc : PriceBuckets) (g : Game) : PriceBuckets :=
  if g.price = 0 then { acc with free := acc.free ++ [g.owners] }
  else if g.price ≤ 1000 then { acc with under10 := acc.under10 ++ [g.owners] }
  else if g.price ≤ 3000 then { acc with mid := acc.mid ++ [g.owners] }
  else { acc with over30 := acc.over30 ++ [g.owners] }

/-- The bucket-filling loop of `format_comprehensive_analysis`. -/
def buildPriceBuckets (games : List Game) : PriceBuckets :=
  games.foldl pbStep ⟨[], [], [], []⟩

/-- `year_genres.setdefault(yr, Counter())` followed by bumping each genre of
the game: update the year's counter in place, or append a fresh entry. -/
def bumpYearGenres : List (Int × List (String × Nat)) → Int → List String →
    List (Int × List (String × Nat))
  | [], yr, gs => [(yr, gs.foldl counterBump [])]
  | (y, c) :: rest, yr, gs =>
      if y == yr then (y, gs.foldl counterBump c) :: rest
      else (y, c) :: bumpYearGenres rest yr gs

/-- `format_comprehensive_analysis`: the comprehensive market-report text
block. Failure strings are already converted to `None` at the call site, and
the function itself only checks `isinstance(..., dict)`, so each data argument
is an `Option`. The dead locals `avg_price_dollars` / `estimated_revenue`
(computed but never printed) are omitted. -/
def format_comprehensive_analysis (steam_data : Option SteamData)
    (rawg_data : Option RawgData)
    (steamspy_genres : Option (List (String × GenreInfo)))
    (steamspy_tags : Option (List (String × TagInfo)))
    (recent_years : Int) : String :=
  let header := "[데이터 기반 시장 분석 리포트 - 최근 " ++ toString recent_years ++ "년]"
  let section1genreLines :=
    match steamspy_genres with
    | some gsd =>
        (pySort (fun a b => decide ((b.2).total_owners ≤ (a.2).total_owners))
          gsd).map (fun gi =>
          let saturation :=
            if 3000 < gi.2.game_count then "높음"
            else if 1000 < gi.2.game_count then "보통" else "낮음"
          "  - " ++ gi.1 ++ ": 게임 수 " ++ commaSepNat gi.2.game_count ++
            ", 추정 소유자 합계 " ++ format_owners gi.2.total_owners ++
            ", 포화도: " ++ saturation)
    | none => []
  let section1rawgLines :=
    match rawg_data with
    | some rd =>
        if rd.genres.isEmpty then []
        else
          "  [RAWG 장르별 게임 수]" ::
            ((pySort (fun a b => decide (b.games_count ≤ a.games_count))
              rd.genres).take 10).map (fun g =>
              "  - " ++ g.name ++ ": " ++ commaSepInt g.games_count ++ "개")
    | none => []
  let tagPairLines :=
    match steam_data with
    | some sd =>
        if sd.games.isEmpty then []
        else
          let tag_pairs := sd.games.foldl (fun tp game =>
            (combinations2 (pySort (fun a b => !(pyLtStr b a))
              (game.tags.take 8))).foldl counterBump tp) []
          "  [히트작 태그 조합 TOP 10]" ::
            (mostCommon tag_pairs 10).map (fun pc =>
              "  - " ++ pc.1.1 ++ " + " ++ pc.1.2 ++ ": " ++
                toString pc.2 ++ "개 게임")
    | none => []
  let coTagLines :=
    match steamspy_tags with
    | some td =>
        "  [태그별 공기 태그 패턴]" :: td.filterMap (fun ti =>
          let co_tags_str := joinComma ((ti.2.co_tags.take 5).map (fun c =>
            c.1 ++ "(" ++ toString c.2 ++ ")"))
          if co_tags_str == "" then none
          else some ("  - " ++ ti.1 ++ "과 자주 결합: " ++ co_tags_str))
    | none => []
  let metacriticLines :=
    match rawg_data with
    | some rd =>
        if rd.metacritic_by_genre.isEmpty then []
        else
          "  [장르별 평균 Metacritic 점수]" ::
            (pySort (fun a b => decide (avgQ b.2 ≤ avgQ a.2))
              rd.metacritic_by_genre).filterMap (fun gs =>
              if 2 ≤ gs.2.length then
                some ("  - " ++ gs.1 ++ ": " ++ fmt1 (avgQ gs.2) ++ " (" ++
                  toString gs.2.length ++ "개 게임)")
              else none)
    | none => []
  let priceBucketLines :=
    match steam_data with
    | some sd =>
        if sd.games.isEmpty then []
        else
          let pb := buildPriceBuckets sd.games
          "  [가격대별 평균 소유자 수]" ::
            ([("무료", pb.free), ("~$10", pb.under10),
              ("$10~$30", pb.mid), ("$30+", pb.over30)].filterMap (fun bl =>
              if bl.2.isEmpty then none
              else
                some ("  - " ++ bl.1 ++ ": 평균 " ++
                  format_owners (Int.fdiv bl.2.sum bl.2.length) ++ " (" ++
                  toString bl.2.length ++ "개 게임)")))
    | none => []
  let yearLines :=
    match steam_data with
    | some sd =>
        if sd.games.isEmpty then []
        else
          let year_genres := sd.games.foldl (fun yg game =>
            if game.release_year ≠ 0 then
              bumpYearGenres yg game.release_year game.genre
            else yg) []
          if year_genres.isEmpty then []
          else
            "  [연도별 히트작 장르 분포]" ::
              (pySort (fun a b => decide (b.1 ≤ a.1)) year_genres).map
                (fun yc =>
                  "  - " ++ toString yc.1 ++ "년: " ++
                    joinComma ((mostCommon yc.2 3).map (fun gc =>
                      gc.1 ++ "(" ++ toString gc.2 ++ ")")))
    | none => []
  let blueOceanLines :=
    match rawg_data, steamspy_genres with
    | some rd, some sgs =>
        if rd.metacritic_by_genre.isEmpty then []
        else
          "  [낮은 포화도 + 높은 평점 장르]" ::
            rd.metacritic_by_genre.filterMap (fun gs =>
              let game_count : Nat :=
                ((lookupAssoc sgs gs.1).map (fun gi => gi.game_count)).getD 0
              if decide (75 ≤ avgQ gs.2) && decide (game_count < 2000) &&
                  decide (2 ≤ gs.2.length) then
                some ("  - " ++ gs.1 ++ ": Metacritic 평균 " ++
                  fmt1 (avgQ gs.2) ++ ", 게임 수 " ++
                  commaSepNat game_count ++ " (기회 영역)")
              else none)
    | _, _ => []
  let missingComboLines :=
    match steamspy_tags with
    | some td =>
        let all_tags := td.map (fun ti => ti.1)
        let existing_combos := td.foldl (fun ec ti =>
          ti.2.co_tags.foldl (fun e c => e ++ [sortPair ti.1 c.1]) ec) []
        let missing_combos := (combinations2 all_tags).filterMap (fun pr =>
          let pair := sortPair pr.1 pr.2
          if pair ∈ existing_combos then none else some pair)
        if missing_combos.isEmpty then []
        else
          "  [인기 태그인데 조합이 드문 쌍]" ::
            (missing_combos.take 8).map (fun pr =>
              "  - " ++ pr.1 ++ " + " ++ pr.2)
    | none => []
  let platformLines :=
    match rawg_data with
    | some rd =>
        if rd.platform_stats.isEmpty then []
        else
          let total := (rd.platform_stats.map (fun pc => pc.2)).sum
          if 0 < total then
            (mostCommonAll rd.platform_stats).map (fun pc =>
              "  - " ++ pc.1 ++ ": " ++
                fmt1 (((pc.2 : ℚ) / (total : ℚ)) * 100) ++ "% (" ++
                toString pc.2 ++ "개)")
          else []
    | none => []
  let multiLines :=
    match rawg_data with
    | some rd =>
        if rd.popular_games.isEmpty then []
        else
          let multi_count :=
            (rd.popular_games.filter (fun g => 1 < g.platforms.length)).length
          let total_g := rd.popular_games.length
          if 0 < total_g then
            ["  - 멀티플랫폼 출시 비율: " ++
              fmt1 (((multi_count : ℚ) / (total_g : ℚ)) * 100) ++ "% (" ++
              toString multi_count ++ "/" ++ toString total_g ++ ")"]
          else []
    | none => []
  joinNL ([header, "", "1. 시장 규모 & 포화도"] ++
    section1genreLines ++ section1rawgLines ++
    ["", "2. 성공 패턴 분석"] ++
    tagPairLines ++ coTagLines ++ metacriticLines ++ priceBucketLines ++
    ["", "3. 성장 트렌드"] ++ yearLines ++
    ["", "4. 블루오션 탐지"] ++ blueOceanLines ++ missingComboLines ++
    ["", "5. 플랫폼 분석"] ++ platformLines ++ multiLines)

end GamePlanner

namespace GamePlanner

/-- C3: `_parse_owners` maps `"10,000 .. 20,000"` to the midpoint `15000`, and
for every malformed range string (one whose integer conversions fail) it
returns `0` rather than raising (the embedding is a total function; the
`except` branch is the `getD 0`). -/
theorem parse_owners_midpoint_and_malformed :
    parse_owners "10,000 .. 20,000" = 15000 ∧
    ∀ s : String, ownersParses s = false → parse_owners s = 0 := by
  refine ⟨by decide, ?_⟩
  intro s h
  unfold parse_owners
  unfold ownersParses at h
  cases hc : parseOwnersCore (ownersParts s) with
  | none => rfl
  | some v => rw [hc] at h; simp at h

/-- Witness for C3: the malformed string `"abc"` parses to `0`. -/
theorem parse_owners_midpoint_and_malformed_witness :
    parse_owners "10,000 .. 20,000" = 15000 ∧
    ownersParses "abc" = false ∧ parse_owners "abc" = 0 :=
  ⟨parse_owners_midpoint_and_malformed.1, by decide,
   parse_owners_midpoint_and_malformed.2 "abc" (by decide)⟩

/-- C10: an owners string with a single parseable number and no `".."`
separator is mapped to that number itself (the degenerate range's midpoint),
not to `0`. -/
theorem parse_owners_single_number (s : String) (p : List Char) (n : Int)
    (hp : ownersParts s = [p]) (hn : parseIntChars (pyStrip p) = some n) :
    parse_owners s = n := by
  unfold parse_owners
  rw [hp]
  simp only [parseOwnersCore, hn, Option.getD_some]
  have : n + n = 2 * n := (two_mul n).symm
  rw [this]
  exact Int.mul_fdiv_cancel_left n (by norm_num)

/-- Witness for C10: `"5000"` parses to `5000`. -/
theorem parse_owners_single_number_witness :
    ownersParts "5000" = ["5000".toList] ∧ parse_owners "5000" = 5000 :=
  ⟨by decide,
   parse_owners_single_number "5000" "5000".toList 5000 (by decide) (by decide)⟩

/-- The first component of the genre-aggregation fold is the running
`total_owners`: the initial value plus the parsed owners of every consumed
entry. -/
theorem genreFold_total (l : List (String × SpyInfo)) (t : Int)
    (ps pl : List Int) :
    (l.foldl genreStep (t, ps, pl)).1 =
      t + (l.map (fun e => parse_owners ((e.2).owners.getD "0"))).sum := by
  induction l generalizing t ps pl with
  | nil => simp
  | cons x xs ih =>
      simp only [List.foldl_cons, List.map_cons, List.sum_cons, genreStep]
      rw [ih]
      ring

/-- The second component of the genre-aggregation fold collects exactly the
positive prices of the consumed entries, in order. -/
theorem genreFold_prices (l : List (String × SpyInfo)) (t : Int)
    (ps pl : List Int) :
    (l.foldl genreStep (t, ps, pl)).2.1 =
      ps ++ (l.map (fun e => priceOf e.2)).filter (fun p => decide (0 < p)) := by
  induction l generalizing t ps pl with
  | nil => simp
  | cons x xs ih =>
      simp only [List.foldl_cons, List.map_cons, List.filter_cons, genreStep]
      by_cases h : 0 < priceOf x.2
      · simp [h, ih]
      · simp [h, ih]

/-- The third component of the genre-aggregation fold collects exactly the
positive `average_forever` values of the consumed entries, in order. -/
theorem genreFold_playtimes (l : List (String × SpyInfo)) (t : Int)
    (ps pl : List Int) :
    (l.foldl genreStep (t, ps, pl)).2.2 =
      pl ++ (l.map (fun e => (e.2).average_forever.getD 0)).filter
        (fun p => decide (0 < p)) := by
  induction l generalizing t ps pl with
  | nil => simp
  | cons x xs ih =>
      simp only [List.foldl_cons, List.map_cons, List.filter_cons, genreStep]
      by_cases h : 0 < (x.2).average_forever.getD 0
      · simp [h, ih]
      · simp [h, ih]

/-- The first component of the tag-aggregation fold is the running
`total_owners`. -/
theorem tagFold_total (tag : String) (l : List (String × SpyInfo)) (t : Int)
    (ps : List Int) (ct : List (String × Nat)) :
    (l.foldl (tagStep tag) (t, ps, ct)).1 =
      t + (l.map (fun e => parse_owners ((e.2).owners.getD "0"))).sum := by
  induction l generalizing t ps ct with
  | nil => simp
  | cons x xs ih =>
      simp only [List.foldl_cons, List.map_cons, List.sum_cons, tagStep]
      rw [ih]
      ring

/-- The second component of the tag-aggregation fold collects exactly the
positive prices of the consumed entries, in order. -/
theorem tagFold_prices (tag : String) (l : List (String × SpyInfo)) (t : Int)
    (ps : List Int) (ct : List (String × Nat)) :
    (l.foldl (tagStep tag) (t, ps, ct)).2.1 =
      ps ++ (l.map (fun e => priceOf e.2)).filter (fun p => decide (0 < p)) := by
  induction l generalizing t ps ct with
  | nil => simp
  | cons x xs ih =>
      simp only [List.foldl_cons, List.map_cons, List.filter_cons, tagStep]
      by_cases h : 0 < priceOf x.2
      · simp [h, ih]
      · simp [h, ih]

/-- C1 (counterexample): on a 51-entry genre payload the aggregate produced by
`fetch_steamspy_genres` has `total_owners = 100`, while the parsed owners of
all entries of the payload sum to `102` — the loop only consumes
`list(games.items())[:50]`. -/
theorem genre_total_owners_counterexample :
    fetch_steamspy_genres c1Oracle =
      .inl [("Action", aggregateGenrePayload genrePayload51)] ∧
    (aggregateGenrePayload genrePayload51).total_owners = 100 ∧
    (genrePayload51.map
      (fun e => parse_owners ((e.2).owners.getD "0"))).sum = 102 := by
  refine ⟨by decide, by decide, by decide⟩

/-- C1 (amended): for every genre payload, the aggregate's `total_owners`
equals the sum of the parsed owners of the first 50 entries of the payload
(hence of all entries whenever the payload has at most 50). -/
theorem genre_total_owners_sums_first50 (payload : List (String × SpyInfo)) :
    (aggregateGenrePayload payload).total_owners =
      ((payload.take 50).map
        (fun e => parse_owners ((e.2).owners.getD "0"))).sum := by
  simp only [aggregateGenrePayload]
  rw [genreFold_total]
  ring

/-- C7: zero or missing values are excluded from the aggregation averages:
`avg_price` is the floor average of the prices `> 0` among the consumed
entries, `avg_playtime` the floor average of the `average_forever` values
`> 0`, and the per-tag `avg_price` likewise; an entry with a zero value never
enters the denominator, and with no qualifying entry the average is `0`. -/
theorem averages_exclude_zero_entries (payload : List (String × SpyInfo))
    (tag : String) :
    ((aggregateGenrePayload payload).avg_price =
      (let ps := ((payload.take 50).map (fun e => priceOf e.2)).filter
          (fun p => decide (0 < p))
       if ps.isEmpty then 0 else Int.fdiv ps.sum ps.length)) ∧
    ((aggregateGenrePayload payload).avg_playtime =
      (let ts := ((payload.take 50).map
          (fun e => (e.2).average_forever.getD 0)).filter
          (fun p => decide (0 < p))
       if ts.isEmpty then 0 else Int.fdiv ts.sum ts.length)) ∧
    ((aggregateTagPayload tag payload).avg_price =
      (let qs := ((payload.take 30).map (fun e => priceOf e.2)).filter
          (fun p => decide (0 < p))
       if qs.isEmpty then 0 else Int.fdiv qs.sum qs.length)) := by
  refine ⟨?_, ?_, ?_⟩
  · simp only [aggregateGenrePayload]
    rw [genreFold_prices]
    simp
  · simp only [aggregateGenrePayload]
    rw [genreFold_playtimes]
    simp
  · simp only [aggregateTagPayload]
    rw [tagFold_prices]
    simp

/-- Every game the detail loop appends passed the `average_2weeks == 0` guard,
so a loop whose accumulator satisfies the invariant produces only games with
nonzero `average_2weeks`. -/
theorem top100Loop_avg2_ne_zero (detail : String → Option SpyInfo)
    (l : List (String × BasicInfo × Int)) (games : List Game)
    (gc tc : List (String × Nat))
    (hg : ∀ g ∈ games, g.average_2weeks ≠ 0) :
    ∀ g ∈ (top100Loop detail l games gc tc).1, g.average_2weeks ≠ 0 := by
  induction l generalizing games gc tc with
  | nil => simpa [top100Loop] using hg
  | cons x xs ih =>
      simp only [top100Loop]
      by_cases hlen : STEAMSPY_TOP_DETAIL_COUNT ≤ games.length
      · simpa [hlen] using hg
      · simp only [if_neg hlen]
        cases hd : detail x.1 with
        | none => exact ih games gc tc hg
        | some d =>
            cases h0 : (d.average_2weeks.getD 0 == 0) with
            | true =>
                simp only [h0, if_true]
                exact ih games gc tc hg
            | false =>
                simp only [h0, Bool.false_eq_true, if_false]
                refine ih _ _ _ ?_
                intro g hgm
                rcases List.mem_append.mp hgm with h | h
                · exact hg g h
                · rcases List.mem_singleton.mp h with rfl
                  simpa using beq_eq_false_iff_ne.mp h0

/-- C9: `fetch_steam_top100` silently drops zero-playtime games: in every
successful result, no returned game has `average_2weeks = 0`. -/
theorem top100_drops_zero_playtime (env : Top100Env) (recent_years : Int)
    (d : SteamData) (h : fetch_steam_top100 env recent_years = .inl d) :
    ∀ g ∈ d.games, g.average_2weeks ≠ 0 := by
  unfold fetch_steam_top100 at h
  cases htop : env.top100 with
  | inr e => rw [htop] at h; simp at h
  | inl items =>
      rw [htop] at h
      simp only [Sum.inl.injEq] at h
      subst h
      exact top100Loop_avg2_ne_zero env.detail _ [] [] [] (by simp)

/-- Witness for C9: in `envOkW` the fetch succeeds with the single game
`gameW`, whose `average_2weeks` is nonzero. -/
theorem top100_drops_zero_playtime_witness : gameW.average_2weeks ≠ 0 :=
  top100_drops_zero_playtime envOkW 3 steamDataW (by decide) gameW (by decide)

/-- C5: a failed `top100in2weeks` request makes `fetch_steam_top100` return
the descriptive failure string (the embedding is a total function, so nothing
is raised), and `format_steam_summary` treats a failure-string (or `None`)
data argument as no data, returning the empty summary. -/
theorem fetch_failure_sentinel_and_formatter :
    (∀ (env : Top100Env) (recent_years : Int) (e : String),
      env.top100 = .inr e →
      fetch_steam_top100 env recent_years =
        .inr ("Steam 데이터 수집 실패: " ++ e)) ∧
    (∀ (s : String) (recent_years : Int),
      format_steam_summary (some (.inr s)) recent_years = "") ∧
    (∀ recent_years : Int, format_steam_summary none recent_years = "") := by
  refine ⟨?_, ?_, ?_⟩
  · intro env ry e h
    unfold fetch_steam_top100
    rw [h]
  · intro s ry; rfl
  · intro ry; rfl

/-- Witness for C5: a concrete timed-out environment yields the sentinel, and
the formatter maps that sentinel to the empty summary. -/
theorem fetch_failure_sentinel_and_formatter_witness :
    fetch_steam_top100 envFailW 3 = .inr ("Steam 데이터 수집 실패: " ++ "timeout") ∧
    format_steam_summary (some (.inr ("Steam 데이터 수집 실패: " ++ "timeout"))) 3 = "" :=
  ⟨fetch_failure_sentinel_and_formatter.1 envFailW 3 "timeout" rfl,
   fetch_failure_sentinel_and_formatter.2.1 _ 3⟩

/-- C2 (counterexample): a RAWG payload collected under `recent_years = 3` at
time 0 is reused by a request with `recent_years = 5` at time 100 (well within
the TTL), although the filter parameters differ: the RAWG cache check consults
no filter parameter. -/
theorem rawg_cache_ignores_filter_counterexample :
    rawgReusedAfterFetch 3 5 0 100 rawgSample = true ∧ (3 : Int) ≠ 5 := by
  refine ⟨?_, by decide⟩
  simp only [rawgReusedAfterFetch, rawg_valid, CACHE_TTL, decide_eq_true_eq]
  norm_num

/-- C2 (amended): the Steam top-100 cache is reused only for a non-failure
payload recorded under the request's `recent_years` and younger than
`CACHE_TTL`; the SteamSpy genre/tag cache and the RAWG cache are reused
exactly when the cached value is a non-failure payload younger than
`CACHE_TTL`, with no filter-parameter check (the RAWG payload does depend on
`recent_years`, but no filter parameter is recorded with it). -/
theorem cache_validity_characterization :
    (∀ (cached : Option (Sum SteamData String)) (cached_years : Option Int)
       (cached_time : ℚ) (recent_years : Int) (now : ℚ),
       cache_valid cached cached_years cached_time recent_years now = true →
       cached_years = some recent_years ∧ now - cached_time < CACHE_TTL ∧
       ∃ p, cached = some (.inl p)) ∧
    (∀ (rc : Option (Sum RawgData String)) (rt now : ℚ),
       rawg_valid rc rt now = true ↔
       (∃ p, rc = some (.inl p)) ∧ now - rt < CACHE_TTL) ∧
    (∀ (gc : Option (Sum GenreCacheEntry String)) (gt now : ℚ),
       steamspy_genre_valid gc gt now = true ↔
       (∃ p, gc = some (.inl p)) ∧ now - gt < CACHE_TTL) := by
  refine ⟨?_, ?_, ?_⟩
  · intro cached cached_years cached_time recent_years now h
    match cached with
    | none => simp [cache_valid] at h
    | some (.inr s) => simp [cache_valid] at h
    | some (.inl p) =>
        simp only [cache_valid, Bool.and_eq_true, beq_iff_eq,
          decide_eq_true_eq] at h
        exact ⟨h.1, h.2, p, rfl⟩
  · intro rc rt now
    match rc with
    | none => simp [rawg_valid]
    | some (.inr s) => simp [rawg_valid]
    | some (.inl p) => simp [rawg_valid]
  · intro gc gt now
    match gc with
    | none => simp [steamspy_genre_valid]
    | some (.inr s) => simp [steamspy_genre_valid]
    | some (.inl p) => simp [steamspy_genre_valid]

/-- Witness for C2 (amended): a fresh Steam cache entry recorded under the
same `recent_years` is valid, and the characterization recovers the match of
years and the TTL bound. -/
theorem cache_validity_characterization_witness :
    cache_valid (some (.inl steamDataW)) (some 3) 0 3 100 = true ∧
    (some (3 : Int) = some 3 ∧ (100 : ℚ) - 0 < CACHE_TTL ∧
      ∃ p, (some (.inl steamDataW) : Option (Sum SteamData String)) =
        some (.inl p)) := by
  have hv : cache_valid (some (.inl steamDataW)) (some 3) 0 3 100 = true := by
    simp only [cache_valid, CACHE_TTL, Bool.and_eq_true, beq_iff_eq,
      decide_eq_true_eq]
    norm_num
  exact ⟨hv,
    cache_validity_characterization.1 (some (.inl steamDataW)) (some 3) 0 3 100
      hv⟩

/-- C8: the AI response handlers strip every code-fence line before parsing
(whenever the stripped response opens with a fence, no line passed on to the
JSON parser starts with one), and both handlers surface a parse failure to the
caller exactly when the cleaned text does not parse — a successful parse is
returned as-is, never a silent empty result. -/
theorem ai_handlers_strip_fences_and_raise {α : Type}
    (jsonParse : String → Option α) (resp : String) :
    (startsWithChars (pyStrip resp.toList) fenceMark = true →
      ∀ ln ∈ cleanLines (pyStrip resp.toList), isFenceLine ln = false) ∧
    (generate_market_analysis jsonParse resp =
        .error "json.loads: Expecting value" ↔
      jsonParse (cleanAiText resp) = none) ∧
    (generate_game_ideas jsonParse resp =
        .error "json.loads: Expecting value" ↔
      jsonParse (cleanAiText resp) = none) ∧
    (∀ j, jsonParse (cleanAiText resp) = some j →
      generate_market_analysis jsonParse resp = .ok j ∧
      generate_game_ideas jsonParse resp = .ok j) := by
  refine ⟨?_, ?_, ?_, ?_⟩
  · intro _ ln hln
    have h2 := (List.mem_filter.mp hln).2
    simpa using h2
  · cases hp : jsonParse (cleanAiText resp) <;>
      simp [generate_market_analysis, hp]
  · cases hp : jsonParse (cleanAiText resp) <;>
      simp [generate_game_ideas, hp]
  · intro j hj
    constructor <;> simp [generate_market_analysis, generate_game_ideas, hj]

/-- The bucket-filling fold sends each game's owners to exactly the bucket
selected by the price branch chain, preserving input order. -/
theorem pbFold_spec (games : List Game) (acc : PriceBuckets) :
    ((games.foldl pbStep acc).free = acc.free ++
      (games.filter (fun g => priceBucket g.price == Bucket.free)).map
        (fun g => g.owners)) ∧
    ((games.foldl pbStep acc).under10 = acc.under10 ++
      (games.filter (fun g => priceBucket g.price == Bucket.under10)).map
        (fun g => g.owners)) ∧
    ((games.foldl pbStep acc).mid = acc.mid ++
      (games.filter (fun g => priceBucket g.price == Bucket.mid)).map
        (fun g => g.owners)) ∧
    ((games.foldl pbStep acc).over30 = acc.over30 ++
      (games.filter (fun g => priceBucket g.price == Bucket.over30)).map
        (fun g => g.owners)) := by
  induction games generalizing acc with
  | nil => simp
  | cons g gs ih =>
      simp only [List.foldl_cons, List.filter_cons]
      rcases ih (pbStep acc g) with ⟨i1, i2, i3, i4⟩
      by_cases h0 : g.price = 0
      · have hstep : pbStep acc g = { acc with free := acc.free ++ [g.owners] } := by
          simp [pbStep, h0]
        have hb : priceBucket g.price = Bucket.free := by
          simp [priceBucket, h0]
        rw [hstep] at i1 i2 i3 i4
        refine ⟨by rw [hstep, i1]; simp [hb], by rw [hstep, i2]; simp [hb],
          by rw [hstep, i3]; simp [hb], by rw [hstep, i4]; simp [hb]⟩
      · by_cases h1 : g.price ≤ 1000
        · have hstep : pbStep acc g =
              { acc with under10 := acc.under10 ++ [g.owners] } := by
            simp [pbStep, h0, h1]
          have hb : priceBucket g.price = Bucket.under10 := by
            simp [priceBucket, h0, h1]
          rw [hstep] at i1 i2 i3 i4
          refine ⟨by rw [hstep, i1]; simp [hb], by rw [hstep, i2]; simp [hb],
            by rw [hstep, i3]; simp [hb], by rw [hstep, i4]; simp [hb]⟩
        · by_cases h2 : g.price ≤ 3000
          · have hstep : pbStep acc g =
                { acc with mid := acc.mid ++ [g.owners] } := by
              simp [pbStep, h0, h1, h2]
            have hb : priceBucket g.price = Bucket.mid := by
              simp [priceBucket, h0, h1, h2]
            rw [hstep] at i1 i2 i3 i4
            refine ⟨by rw [hstep, i1]; simp [hb], by rw [hstep, i2]; simp [hb],
              by rw [hstep, i3]; simp [hb], by rw [hstep, i4]; simp [hb]⟩
          · have hstep : pbStep acc g =
                { acc with over30 := acc.over30 ++ [g.owners] } := by
              simp [pbStep, h0, h1, h2]
            have hb : priceBucket g.price = Bucket.over30 := by
              simp [priceBucket, h0, h1, h2]
            rw [hstep] at i1 i2 i3 i4
            refine ⟨by rw [hstep, i1]; simp [hb], by rw [hstep, i2]; simp [hb],
              by rw [hstep, i3]; simp [hb], by rw [hstep, i4]; simp [hb]⟩

/-- C4: the report formatter's price-bucket classification puts
`price_cents = 0` in the free bucket, `999` in the `~$10` bucket, `3000` in
the `$10~$30` bucket (inclusive upper boundary), `3001` in the `$30+` bucket,
and every game of the input list lands in exactly the bucket its price
selects. -/
theorem price_bucket_classification (games : List Game) :
    priceBucket 0 = Bucket.free ∧ priceBucket 999 = Bucket.under10 ∧
    priceBucket 3000 = Bucket.mid ∧ priceBucket 3001 = Bucket.over30 ∧
    ((buildPriceBuckets games).free =
      (games.filter (fun g => priceBucket g.price == Bucket.free)).map
        (fun g => g.owners)) ∧
    ((buildPriceBuckets games).under10 =
      (games.filter (fun g => priceBucket g.price == Bucket.under10)).map
        (fun g => g.owners)) ∧
    ((buildPriceBuckets games).mid =
      (games.filter (fun g => priceBucket g.price == Bucket.mid)).map
        (fun g => g.owners)) ∧
    ((buildPriceBuckets games).over30 =
      (games.filter (fun g => priceBucket g.price == Bucket.over30)).map
        (fun g => g.owners)) := by
  obtain ⟨h1, h2, h3, h4⟩ := pbFold_spec games ⟨[], [], [], []⟩
  exact ⟨by decide, by decide, by decide, by decide,
    by simpa [buildPriceBuckets] using h1,
    by simpa [buildPriceBuckets] using h2,
    by simpa [buildPriceBuckets] using h3,
    by simpa [buildPriceBuckets] using h4⟩

/-- C6: the report formatter is deterministic — two calls to
`format_comprehensive_analysis` on equal input values produce the same text
block (the embedding is a pure function of its five arguments: no clock,
randomness or ambient state enters the output). -/
theorem format_comprehensive_deterministic
    (s s2 : Option SteamData) (r r2 : Option RawgData)
    (g g2 : Option (List (String × GenreInfo)))
    (t t2 : Option (List (String × TagInfo))) (y y2 : Int)
    (hs : s = s2) (hr : r = r2) (hg : g = g2) (ht : t = t2) (hy : y = y2) :
    format_comprehensive_analysis s r g t y =
      format_comprehensive_analysis s2 r2 g2 t2 y2 := by
  subst hs; subst hr; subst hg; subst ht; subst hy; rfl

/-- Witness for C6: the determinism theorem applied at a concrete input. -/
theorem format_comprehensive_deterministic_witness :
    format_comprehensive_analysis (some steamDataW) (some rawgSample)
      none none 3 =
    format_comprehensive_analysis (some steamDataW) (some rawgSample)
      none none 3 :=
  format_comprehensive_deterministic (some steamDataW) (some steamDataW)
    (some rawgSample) (some rawgSample) none none none none 3 3
    rfl rfl rfl rfl rfl

/-- Witness for C8: on the fenced response `"```json\nx\n```"` the single
surviving line is `"x"` (no fence), and with a parser rejecting the cleaned
text the handler surfaces the parse failure. -/
theorem ai_handlers_strip_fences_and_raise_witness :
    startsWithChars (pyStrip ("```json\nx\n```").toList) fenceMark = true ∧
    cleanLines (pyStrip ("```json\nx\n```").toList) = ["x".toList] ∧
    isFenceLine ("x".toList) = false ∧
    generate_market_analysis (fun _ => (none : Option Unit))
      "```json\nx\n```" = .error "json.loads: Expecting value" :=
  ⟨by decide, by decide,
   (ai_handlers_strip_fences_and_raise (fun _ => (none : Option Unit))
       "```json\nx\n```").1 (by decide) ("x".toList) (by decide),
   ((ai_handlers_strip_fences_and_raise (fun _ => (none : Option Unit))
       "```json\nx\n```").2.1).mpr rfl⟩

end GamePlanner
